import Mathlib

/-!
Verification of the GitHub paginated-fetch client in `githuberino.py`
(functions `github_allpages`, `github_pagination`, `github_rest_api`,
`setting`) against its natural-language specification.

The Python code is shallowly embedded: mutation of the `requests` session
objects, of the caller's state object and console printing are modelled by
explicit state passing through a `World` record; Python exceptions are
modelled with `Except PyErr`; Python dictionaries are association lists with
insertion-order update-or-append semantics.
-/

/-- Python exceptions that the modelled code can raise, plus `fuelExhausted`,
which is not a Python exception: it marks that the fuel given to the model of
the unbounded `while True` loop ran out before the loop terminated. -/
inductive PyErr where
  | keyError
  | valueError
  | attributeError
  | typeError
  | noOptionError
  | fuelExhausted
deriving DecidableEq, Repr

/-- A Python value as stored in the pagination dictionary: the initial page
numbers are the int 0, the initial URLs are None, and parsed values are
strings. -/
inductive PyVal where
  | none
  | int (n : Int)
  | str (s : String)
deriving DecidableEq, Repr

/-- Python truthiness of a `PyVal`: None, 0 and the empty string are falsy. -/
def PyVal.truthy : PyVal → Bool
  | .none => false
  | .int n => n != 0
  | .str s => s != ""

/-- Python `d[k] = v` on an association-list dictionary: update the existing
entry in place if the key is present, otherwise append a new entry at the end
(Python dicts preserve insertion order). -/
def dictSet {α : Type} : List (String × α) → String → α → List (String × α)
  | [], k, v => [(k, v)]
  | (k0, v0) :: rest, k, v =>
      if k0 = k then (k0, v) :: rest else (k0, v0) :: dictSet rest k v

/-- Python `d.get(k)` on an association-list dictionary. -/
def dictGet {α : Type} : List (String × α) → String → Option α
  | [], _ => Option.none
  | (k0, v0) :: rest, k => if k0 = k then some v0 else dictGet rest k

/-- Python `s[1:-1]`: drop the first and the last character (empty result for
strings of length at most one, as in Python). -/
def pySlice1m1 (s : String) : String :=
  ((s.toList.drop 1).dropLast).asString

/-- Helper for `pySplitOn`: walk the character list, cutting at each
occurrence of the separator (`acc` holds the current piece reversed). -/
def pySplitAux (sep : Char) : List Char → List Char → List String
  | [], acc => [acc.reverse.asString]
  | c :: rest, acc =>
      if c = sep then acc.reverse.asString :: pySplitAux sep rest []
      else pySplitAux sep rest (c :: acc)

/-- Python `s.split(sep)` for a one-character separator (the only kind the
code uses: `,` `;` `=` `?`): split at every occurrence, keeping empty
pieces; the result is never the empty list. -/
def pySplitOn (sep : Char) (s : String) : List String :=
  pySplitAux sep s.toList []

/-- Python `s.strip()`: remove leading and trailing whitespace. -/
def pyStrip (s : String) : String :=
  (((s.toList.dropWhile Char.isWhitespace).reverse.dropWhile
      Char.isWhitespace).reverse).asString

/-- Python `s.lower()` for the ASCII strings the code handles. -/
def pyLower (s : String) : String :=
  (s.toList.map Char.toLower).asString

/-- Case-insensitive HTTP header lookup, as done by the `requests` library´s
`CaseInsensitiveDict` (`response.headers[k]`); `Option.none` stands for the
`KeyError` raised when the header is absent. -/
def headerGet (hs : List (String × String)) (k : String) : Option String :=
  (hs.find? (fun p => pyLower p.1 = pyLower k)).map (·.2)

/-- An HTTP response as the model sees it: status code, body text and
headers.  `requests` yields exactly these three observables to the code under
verification. -/
structure Response where
  status_code : Int
  text : String
  headers : List (String × String)
deriving DecidableEq, Repr

/-- The `requests` library's `response.ok`: true iff `raise_for_status()`
would not raise, i.e. the status code is not a 4xx or 5xx code. -/
def Response.ok (r : Response) : Bool :=
  !(400 ≤ r.status_code && r.status_code < 600)

/-- Argument of `github_pagination`: either a raw header string or a response
object (the function checks `isinstance(link_header, str)`). -/
inductive LinkArg where
  | str (s : String)
  | resp (r : Response)

/-- The initial dictionary built at the top of `github_pagination`:
`firstpage`/`prevpage`/`nextpage`/`lastpage` are the int 0 and
`firstURL`/`prevURL`/`nextURL`/`lastURL` are None. -/
def paginationDefaults : List (String × PyVal) :=
  [("firstpage", .int 0), ("firstURL", .none),
   ("prevpage", .int 0), ("prevURL", .none),
   ("nextpage", .int 0), ("nextURL", .none),
   ("lastpage", .int 0), ("lastURL", .none)]

/-- One iteration of the `for link in links` loop of `github_pagination`:

    linktype = link.split(';')[-1].split('=')[-1].strip()[1:-1]
    url = link.split(';')[0].strip()[1:-1]
    pageno = url.split('?')[-1].split('=')[-1].strip()
    retval[linktype + 'page'] = pageno
    retval[linktype + 'URL'] = url

`split` never returns an empty list, so the `[-1]`/`[0]` indexings cannot
raise; `getLastD`/`headD` with a default model them. -/
def paginationStep (acc : List (String × PyVal)) (link : String) :
    List (String × PyVal) :=
  let linktype :=
    pySlice1m1 (pyStrip (((pySplitOn '=' ((pySplitOn ';' link).getLastD "")).getLastD "")))
  let url := pySlice1m1 (pyStrip ((pySplitOn ';' link).headD ""))
  let pageno := pyStrip ((pySplitOn '=' ((pySplitOn '?' url).getLastD "")).getLastD "")
  dictSet (dictSet acc (linktype ++ "page") (.str pageno))
    (linktype ++ "URL") (.str url)

/-- `github_pagination`: parse a GitHub `Link` HTTP header.  When given a
response object whose `Link` header is absent, the `KeyError` is caught and
the default dictionary is returned; otherwise the header string is split on
`,` and each entry is parsed by `paginationStep`. -/
def github_pagination (link_header : LinkArg) : List (String × PyVal) :=
  match link_header with
  | .str link_string =>
      (pySplitOn ',' link_string).foldl paginationStep paginationDefaults
  | .resp r =>
      match headerGet r.headers "Link" with
      | Option.none => paginationDefaults
      | some link_string =>
          (pySplitOn ',' link_string).foldl paginationStep paginationDefaults

/-- A JSON value as produced by Python's `json.loads`, restricted to integer
numeric literals (none of the modelled behaviour involves floating point,
which is outside the model). -/
inductive Json where
  | jnull
  | jbool (bv : Bool)
  | jnum (iv : Int)
  | jstr (sv : String)
  | jarr (items : List Json)
  | jobj (fields : List (String × Json))

/-- Skip JSON whitespace. -/
def jsonWs : List Char → List Char
  | [] => []
  | c :: rest =>
      if c = ' ' || c = '\t' || c = '\n' || c = '\r' then jsonWs rest
      else c :: rest

/-- Translate a JSON string escape character (`\uXXXX` escapes are outside
the model). -/
def escCharOf (e : Char) : Option Char :=
  if e = '"' then some '"'
  else if e = '\\' then some '\\'
  else if e = '/' then some '/'
  else if e = 'n' then some '\n'
  else if e = 't' then some '\t'
  else if e = 'r' then some '\r'
  else if e = 'b' then some (Char.ofNat 8)
  else if e = 'f' then some (Char.ofNat 12)
  else Option.none

/-- Parse the body of a JSON string literal after the opening quote;
`acc` holds the characters read so far, reversed. -/
def strBody : List Char → List Char → Option (String × List Char)
  | '"' :: rest, acc => some (acc.reverse.asString, rest)
  | '\\' :: e :: rest, acc =>
      match escCharOf e with
      | some c => strBody rest (c :: acc)
      | Option.none => Option.none
  | '\\' :: [], _ => Option.none
  | c :: rest, acc => strBody rest (c :: acc)
  | [], _ => Option.none

/-- Numeric value of a digit list. -/
def digitsToNat (ds : List Char) : Nat :=
  ds.foldl (fun a c => a * 10 + (c.toNat - 48)) 0

/-- Parse a nonempty digit run at the head of the input. -/
def parseNatPart (cs : List Char) : Option (Nat × List Char) :=
  let p := cs.span Char.isDigit
  if p.1.isEmpty then Option.none else some (digitsToNat p.1, p.2)

/-- Parse a JSON integer literal (optional leading minus). -/
def parseNumPart (cs : List Char) : Option (Int × List Char) :=
  match cs with
  | '-' :: rest => (parseNatPart rest).map (fun p => (-(p.1 : Int), p.2))
  | _ => (parseNatPart cs).map (fun p => ((p.1 : Int), p.2))

mutual

/-- Recursive-descent JSON value parser (fuel-indexed; `json_loads` supplies
ample fuel, exhaustion maps to the same error as malformed input). -/
def parseVal : Nat → List Char → Except PyErr (Json × List Char)
  | 0, _ => .error .valueError
  | fuel + 1, cs =>
      match jsonWs cs with
      | [] => .error .valueError
      | c :: rest =>
          if c = 'n' then
            match rest with
            | 'u' :: 'l' :: 'l' :: r => .ok (.jnull, r)
            | _ => .error .valueError
          else if c = 't' then
            match rest with
            | 'r' :: 'u' :: 'e' :: r => .ok (.jbool true, r)
            | _ => .error .valueError
          else if c = 'f' then
            match rest with
            | 'a' :: 'l' :: 's' :: 'e' :: r => .ok (.jbool false, r)
            | _ => .error .valueError
          else if c = '"' then
            match strBody rest [] with
            | some (s, r) => .ok (.jstr s, r)
            | Option.none => .error .valueError
          else if c = '[' then
            match jsonWs rest with
            | ']' :: r => .ok (.jarr [], r)
            | cs2 =>
                match parseItems fuel cs2 with
                | .ok (xs, r) => .ok (.jarr xs, r)
                | .error e => .error e
          else if c = Char.ofNat 123 then
            match jsonWs rest with
            | [] => .error .valueError
            | c2 :: r2 =>
                if c2 = Char.ofNat 125 then .ok (.jobj [], r2)
                else
                  match parseMembers fuel (c2 :: r2) with
                  | .ok (ms, r) => .ok (.jobj ms, r)
                  | .error e => .error e
          else
            match parseNumPart (c :: rest) with
            | some (n, r) => .ok (.jnum n, r)
            | Option.none => .error .valueError

/-- Parse the elements of a nonempty JSON array up to and including the
closing bracket. -/
def parseItems : Nat → List Char → Except PyErr (List Json × List Char)
  | 0, _ => .error .valueError
  | fuel + 1, cs =>
      match parseVal fuel cs with
      | .error e => .error e
      | .ok (v, r) =>
          match jsonWs r with
          | ',' :: r2 =>
              match parseItems fuel r2 with
              | .ok (xs, r3) => .ok (v :: xs, r3)
              | .error e => .error e
          | ']' :: r2 => .ok ([v], r2)
          | _ => .error .valueError

/-- Parse the members of a nonempty JSON object up to and including the
closing brace. -/
def parseMembers : Nat → List Char → Except PyErr (List (String × Json) × List Char)
  | 0, _ => .error .valueError
  | fuel + 1, cs =>
      match jsonWs cs with
      | [] => .error .valueError
      | c :: rest =>
          if c = '"' then
            match strBody rest [] with
            | some (k, r) =>
                match jsonWs r with
                | ':' :: r2 =>
                    match parseVal fuel r2 with
                    | .error e => .error e
                    | .ok (v, r3) =>
                        match jsonWs r3 with
                        | [] => .error .valueError
                        | ',' :: r4 =>
                            match parseMembers fuel r4 with
                            | .ok (ms, r5) => .ok ((k, v) :: ms, r5)
                            | .error e => .error e
                        | c2 :: r4 =>
                            if c2 = Char.ofNat 125 then .ok ([(k, v)], r4)
                            else .error .valueError
                | _ => .error .valueError
            | Option.none => .error .valueError
          else .error .valueError

end

/-- Python `json.loads`: parse a complete JSON value, requiring only
whitespace after it; any failure is a `ValueError`
(`json.JSONDecodeError` subclasses `ValueError`). -/
def json_loads (s : String) : Except PyErr Json :=
  match parseVal (2 * s.length + 2) s.toList with
  | .error e => .error e
  | .ok (v, rest) => if (jsonWs rest).isEmpty then .ok v else .error .valueError

/-- Python `payload.extend(x)` for `x` produced by `json.loads`: a list
extends element-wise, a dict extends with its keys, a string with its
one-character substrings; numbers, booleans and None are not iterable
(`TypeError`). -/
def pyExtend (payload : List Json) : Json → Except PyErr (List Json)
  | .jarr xs => .ok (payload ++ xs)
  | .jobj ms => .ok (payload ++ ms.map (fun m => Json.jstr m.1))
  | .jstr s => .ok (payload ++ s.toList.map (fun c => Json.jstr (String.singleton c)))
  | _ => .error .typeError

/-- Digit-run part of `pyInt`. -/
def pyIntDigits (cs : List Char) : Except PyErr Int :=
  if cs.isEmpty then .error .valueError
  else if cs.all Char.isDigit then .ok ((digitsToNat cs : Nat) : Int)
  else .error .valueError

/-- Python `int(s)` on a string: optional surrounding whitespace, optional
sign, then a nonempty digit run; anything else raises `ValueError`
(digit-group underscores are outside the model). -/
def pyInt (s : String) : Except PyErr Int :=
  match (pyStrip s).toList with
  | [] => .error .valueError
  | c :: rest =>
      if c = '-' then
        match pyIntDigits rest with
        | .ok n => .ok (-n)
        | .error e => .error e
      else if c = '+' then pyIntDigits rest
      else pyIntDigits (c :: rest)

/-- A value assignable to `sess.auth`: the `None` of a freshly created
`requests` session, the empty tuple `()` assigned when no auth is given and
no default account is found, or a `(username, pat)` tuple (whose token may be
None, since it comes from `setting` which can return None). -/
inductive Auth where
  | noneA
  | empty
  | pair (user : String) (pat : Option String)
deriving DecidableEq, Repr

/-- Python truthiness of an auth value: `None` and `()` are falsy, a
two-element tuple is truthy. -/
def Auth.truthy : Auth → Bool
  | .noneA => false
  | .empty => false
  | .pair _ _ => true

/-- A parsed `.ini` file: sections in order, each a list of key/value
options. -/
def IniFile := List (String × List (String × String))

/-- Section lookup of `configparser` (section names are case-sensitive). -/
def iniSection (ini : IniFile) (sectionName : String) :
    Option (List (String × String)) :=
  (ini.find? (fun p => p.1 = sectionName)).map (·.2)

/-- Option lookup of `configparser` within a section (option keys are
case-insensitive: the default `optionxform` lowercases them). -/
def iniKey (sect : List (String × String)) (key : String) : Option String :=
  (sect.find? (fun p => pyLower p.1 = pyLower key)).map (·.2)

/-- `setting(topic, section, key)` of `githuberino.py`.  The filesystem is
injected as `files`, mapping the lowercased topic to the parsed ini file when
`../_private/<topic>.ini` exists (`config.read` of a missing file leaves the
parser empty, so a missing file behaves as a file with no sections; files
using configparser's special DEFAULT section are outside the model).
`config.get` raises `NoSectionError` when the section is absent — caught and
turned into `None` — and `NoOptionError` when the section exists but the key
does not, which the code does not catch. -/
def setting (files : String → Option IniFile) (topic sectionName key : String) :
    Except PyErr (Option String) :=
  let config : IniFile := (files (pyLower topic)).getD []
  match iniSection config sectionName with
  | Option.none => .ok Option.none
  | some sect =>
      match iniKey sect key with
      | Option.none => .error .noOptionError
      | some v => .ok (some v)

/-- The caller-supplied state object of `github_rest_api`: verbosity flag,
cached `requests` session (an id into `World.sessions`, or None) and the
last-seen rate-limit counters. -/
structure GithubState where
  verbose : Bool
  requests_session : Option Nat
  last_ratelimit : Int
  last_remaining : Int
deriving DecidableEq, Repr

/-- One `sess.get(full_endpoint, headers=headers_dict)` call as recorded in
the world: the session that issued it, that session's auth at the moment of
the call, the URL and the headers sent. -/
structure GetEvent where
  sid : Nat
  authUsed : Auth
  url : String
  headersSent : List (String × String)
deriving DecidableEq, Repr

/-- The mutable world the code acts on: every `requests` session created so
far (indexed by id, holding its current `auth` attribute), the log of HTTP
GETs issued, and the lines printed to the console. -/
structure World where
  sessions : List Auth
  getLog : List GetEvent
  prints : List String
deriving DecidableEq, Repr

/-- Append a printed line to the world. -/
def pushPrint (w : World) (line : String) : World :=
  { w with prints := w.prints ++ [line] }

/-- Python truthiness of the endpoint argument: `None` and the empty string
are falsy (`if not endpoint`). -/
def endpointTruthy : Option String → Bool
  | Option.none => false
  | some s => s != ""

/-- The auth-defaulting block of `github_rest_api` (lines 119-124): when the
passed auth is falsy, look up the default account via `setting`; if one is
found (a truthy, i.e. nonempty, string) pair it with its `pat` setting,
otherwise use the empty tuple.  Either `setting` call may raise
`NoOptionError`, which propagates. -/
def resolve_auth (files : String → Option IniFile) (auth : Auth) :
    Except PyErr Auth :=
  if auth.truthy then .ok auth
  else
    match setting files "dougerino" "defaults" "github_user" with
    | .error e => .error e
    | .ok Option.none => .ok .empty
    | .ok (some default_account) =>
        if default_account = "" then .ok .empty
        else
          match setting files "github" default_account "pat" with
          | .error e => .error e
          | .ok pat => .ok (.pair default_account pat)

/-- The session-selection block of `github_rest_api` (lines 131-143): an
explicitly passed session wins; otherwise a state object's cached session is
used, lazily creating and caching one; otherwise a throwaway session is
created for this call.  Returns the session id, the (possibly updated) state
and the (possibly extended) world; a fresh `requests` session starts with
`auth = None`. -/
def select_session (state : Option GithubState) (session : Option Nat)
    (w : World) : Nat × Option GithubState × World :=
  match session with
  | some sid => (sid, state, w)
  | Option.none =>
      match state with
      | some st =>
          match st.requests_session with
          | some sid => (sid, some st, w)
          | Option.none =>
              (w.sessions.length,
               some { st with requests_session := some w.sessions.length },
               { w with sessions := w.sessions ++ [Auth.noneA] })
      | Option.none =>
          (w.sessions.length, Option.none,
           { w with sessions := w.sessions ++ [Auth.noneA] })

/-- The `full_endpoint` computation of `github_rest_api` (lines 146-147): a
root-relative endpoint is appended to the GitHub API host.  Only reached with
a nonempty endpoint, so `endpoint[0]` cannot raise. -/
def resolveUrl (ep : String) : String :=
  if ep.toList.headD ' ' = '/' then "https://api.github.com" ++ ep else ep

/-- The merged header dictionary of `github_rest_api` (line 128):
`{**{"Accept": "application/vnd.github.v3+json"}, **headers}` — the Accept
default first, caller headers merged over it. -/
def mergeHeaders (headers : List (String × String)) : List (String × String) :=
  headers.foldl (fun d p => dictSet d p.1 p.2)
    [("Accept", "application/vnd.github.v3+json")]

/-- The rate-limit observation block of `github_rest_api` (lines 153-165),
given the state object and the response: assign
`int(response.headers['X-RateLimit-Limit'])` then
`int(response.headers['X-RateLimit-Remaining'])`; a `KeyError` from either
missing header is caught and both counters are set to 999999, while a
`ValueError` from `int` on a malformed header value is not caught.  On error
the partially updated state is returned alongside, since the mutations
already happened on the caller's object. -/
def rateLimitUpdate (st : GithubState) (resp : Response) :
    Except (PyErr × GithubState) GithubState :=
  match headerGet resp.headers "X-RateLimit-Limit" with
  | Option.none => .ok { st with last_ratelimit := 999999, last_remaining := 999999 }
  | some limitStr =>
      match pyInt limitStr with
      | .error e => .error (e, st)
      | .ok lim =>
          let stA := { st with last_ratelimit := lim }
          match headerGet resp.headers "X-RateLimit-Remaining" with
          | Option.none =>
              .ok { stA with last_ratelimit := 999999, last_remaining := 999999 }
          | some remStr =>
              match pyInt remStr with
              | .error e => .error (e, stA)
              | .ok rem => .ok { stA with last_remaining := rem }

/-- The rate-limit console line of `github_rest_api` (lines 167-172). -/
def rateLimitLine (st : GithubState) (auth : Auth) : String :=
  let username := match auth with
    | .pair u _ => u
    | _ => "(non-authenticated)"
  "  Rate Limit: " ++ toString st.last_remaining ++ " available, "
    ++ toString (st.last_ratelimit - st.last_remaining) ++ " used, "
    ++ toString st.last_ratelimit ++ " total for " ++ username

/-- `github_rest_api`: one GitHub API GET.  The external world is injected as
`files` (the settings provider's filesystem) and `server` (the HTTP world:
the response each URL yields).  Returns the Python return value — `None` for
a falsy endpoint, otherwise the response — or the uncaught exception, along
with the state object and world as they stand when control leaves the
function (mutations up to an uncaught exception persist). -/
def github_rest_api (files : String → Option IniFile)
    (server : String → Response) (endpoint : Option String) (auth : Auth)
    (headers : List (String × String)) (state : Option GithubState)
    (session : Option Nat) (w : World) :
    Except PyErr (Option Response) × Option GithubState × World :=
  if endpointTruthy endpoint = false then
    (.ok Option.none, state,
     pushPrint w "ERROR: github_api() called with no endpoint")
  else
    match resolve_auth files auth with
    | .error e => (.error e, state, w)
    | .ok auth1 =>
        let headers_dict := mergeHeaders headers
        match select_session state session w with
        | (sid, state1, w1) =>
            let w2 := { w1 with sessions := w1.sessions.set sid auth1 }
            let ep := endpoint.getD ""
            let full_endpoint := resolveUrl ep
            let resp := server full_endpoint
            let w3 := { w2 with
              getLog := w2.getLog ++ [⟨sid, auth1, full_endpoint, headers_dict⟩] }
            let w4 := match state1 with
              | some st => if st.verbose then pushPrint w3 ("    Endpoint: " ++ ep) else w3
              | Option.none => w3
            match state1 with
            | Option.none => (.ok (some resp), Option.none, w4)
            | some st =>
                match rateLimitUpdate st resp with
                | .error ep2 => (.error ep2.1, some ep2.2, w4)
                | .ok st2 =>
                    let w5 := if st2.verbose then pushPrint w4 (rateLimitLine st2 auth1) else w4
                    (.ok (some resp), some st2, w5)

/-- The console line of `github_allpages` (lines 33-34): the formatted
`requests` response repr and the body length. -/
def statusLine (resp : Response) : String :=
  "      Status: <Response [" ++ toString resp.status_code ++ "]>, "
    ++ toString resp.text.length ++ " bytes returned"

/-- The `while True` loop of `github_allpages` (lines 28-49), with explicit
fuel for the unbounded loop.  Each iteration fetches the current page; a
`None` response makes the loop's first use of the response
(`response.status_code`, or `len(response.text)` inside the status print when
verbose) raise `AttributeError`.  The body is parsed and appended only when
`response.ok`; the next endpoint comes from the `nextURL` slot of the parsed
pagination header and a falsy value ends the loop.  The state object returned
by the page fetch is threaded on, since in Python it is the same mutable
object `github_allpages` keeps passing. -/
def github_allpages_loop (files : String → Option IniFile)
    (server : String → Response) (auth : Auth)
    (headers : List (String × String)) (session : Option Nat) :
    Nat → Option String → List Json → Option GithubState → World →
    Except PyErr (List Json) × Option GithubState × World
  | 0, _, _, state, w => (.error .fuelExhausted, state, w)
  | fuel + 1, page_endpoint, payload, state, w =>
      match github_rest_api files server page_endpoint auth headers state session w with
      | (.error e, st1, w1) => (.error e, st1, w1)
      | (.ok Option.none, st1, w1) => (.error .attributeError, st1, w1)
      | (.ok (some resp), st1, w1) =>
          let verbose := match st1 with
            | some st => st.verbose
            | Option.none => false
          let w2 := if verbose || resp.status_code != 200
            then pushPrint w1 (statusLine resp) else w1
          let extended : Except PyErr (List Json) :=
            if resp.ok then
              match json_loads resp.text with
              | .error e => .error e
              | .ok thispage => pyExtend payload thispage
            else .ok payload
          match extended with
          | .error e => (.error e, st1, w2)
          | .ok payload1 =>
              match dictGet (github_pagination (.resp resp)) "nextURL" with
              | Option.none => (.error .keyError, st1, w2)
              | some v =>
                  if v.truthy then
                    match v with
                    | .str s =>
                        github_allpages_loop files server auth headers session
                          fuel (some s) payload1 st1 w2
                    | _ => (.error .typeError, st1, w2)
                  else (.ok payload1, st1, w2)

/-- `github_allpages`: fetch every page from `endpoint` on.  The headers
normalization `headers = {} if not headers else headers` is the identity in
the association-list model (a falsy headers value is the empty list), so the
loop is entered directly with an empty payload. -/
def github_allpages (files : String → Option IniFile)
    (server : String → Response) (fuel : Nat) (endpoint : Option String)
    (auth : Auth) (headers : List (String × String))
    (state : Option GithubState) (session : Option Nat) (w : World) :
    Except PyErr (List Json) × Option GithubState × World :=
  github_allpages_loop files server auth headers session fuel endpoint [] state w

/-- The `nextURL` slot of a response's parsed pagination header (always
present, see `dictGet_nextURL`). -/
def nextVal (r : Response) : PyVal :=
  (dictGet (github_pagination (.resp r)) "nextURL").getD .none

/-- The elements of a response body that parses as a JSON array (empty list
otherwise; only used under a hypothesis that the body does parse as an
array). -/
def bodyElems (r : Response) : List Json :=
  match json_loads r.text with
  | .ok (.jarr xs) => xs
  | _ => []

/-- A finite chain of pages reachable from `url` by following `next` links:
the last page's parsed `nextURL` is falsy, every earlier page's `nextURL` is
a nonempty URL string naming the next page.  `server` maps each resolved URL
to its response. -/
inductive FetchChain (server : String → Response) : String → List Response → Prop where
  | last (url : String)
      (hstop : (nextVal (server (resolveUrl url))).truthy = false) :
      FetchChain server url [server (resolveUrl url)]
  | step (url u : String) (rs : List Response)
      (hnext : nextVal (server (resolveUrl url)) = .str u) (hu : u ≠ "")
      (htail : FetchChain server u rs) :
      FetchChain server url (server (resolveUrl url) :: rs)

/-- A settings filesystem with no ini files at all: every `setting` lookup
finds a missing file, hence an empty parser, hence no section. -/
def noFiles : String → Option IniFile := fun _ => Option.none

/-- The empty starting world: no sessions created, no GETs issued, nothing
printed. -/
def emptyWorld : World := ⟨[], [], []⟩

/-- A server that answers every URL with an empty JSON array and no
pagination header. -/
def plainServer : String → Response := fun _ => ⟨200, "[]", []⟩

/-- URLs of the three-page fixture. -/
def c1url1 : String := "https://api.x/items?page=1"

def c1url2 : String := "https://api.x/items?page=2"

def c1url3 : String := "https://api.x/items?page=3"

/-- Three pages of JSON arrays with bodies containing ids 1, 2 and 3,
chained by `next` links, the last page without a `next` link. -/
def c1server : String → Response := fun u =>
  if u = c1url1 then
    ⟨200, "[\x7b\"id\":1\x7d]",
     [("Link", "<https://api.x/items?page=2>; rel=\"next\"")]⟩
  else if u = c1url2 then
    ⟨200, "[\x7b\"id\":2\x7d]",
     [("Link", "<https://api.x/items?page=3>; rel=\"next\"")]⟩
  else if u = c1url3 then
    ⟨200, "[\x7b\"id\":3\x7d]", []⟩
  else ⟨404, "", []⟩

/-- URLs of the two-page error fixture. -/
def c2url1 : String := "https://api.x/err?page=1"

def c2url2 : String := "https://api.x/err?page=2"

/-- Two pages: the first fails with status 404 yet still carries a JSON
array body `[1]` and a `next` link; the second is ok with body `[2]` and no
further link. -/
def c2server : String → Response := fun u =>
  if u = c2url1 then
    ⟨404, "[1]", [("Link", "<https://api.x/err?page=2>; rel=\"next\"")]⟩
  else if u = c2url2 then ⟨200, "[2]", []⟩
  else ⟨500, "", []⟩

/-- A server whose responses carry a malformed `X-RateLimit-Limit` header
and no `X-RateLimit-Remaining` header. -/
def c6server : String → Response := fun _ =>
  ⟨200, "", [("X-RateLimit-Limit", "abc")]⟩

/-- A server whose responses carry neither rate-limit header. -/
def c6missingServer : String → Response := fun _ => ⟨200, "ok", []⟩

/-- A non-verbose state object with stale rate-limit counters and no cached
session. -/
def st6 : GithubState := ⟨false, Option.none, 5000, 4999⟩

/-- A settings filesystem with one ini file, `github.ini`, holding a section
`alice` with the single key `pat`. -/
def iniFiles1 : String → Option IniFile := fun t =>
  if t = "github" then some [("alice", [("pat", "tok123")])] else Option.none

theorem dictGet_dictSet {α : Type} (d : List (String × α)) (k : String)
    (v : α) (k' : String) :
    dictGet (dictSet d k v) k' = if k' = k then some v else dictGet d k' := by
  induction d with
  | nil =>
      by_cases h : k' = k
      · subst h; simp [dictSet, dictGet]
      · simp [dictSet, dictGet, h, Ne.symm h]
  | cons hd tl ih =>
      obtain ⟨k0, v0⟩ := hd
      by_cases h0 : k0 = k
      · subst h0
        by_cases h : k' = k0
        · subst h; simp [dictSet, dictGet]
        · simp [dictSet, dictGet, h, Ne.symm h]
      · by_cases h1 : k0 = k'
        · subst h1
          simp [dictSet, dictGet, h0, Ne.symm h0]
        · simp [dictSet, dictGet, h0, h1, ih]

theorem isSome_dictGet_dictSet {α : Type} (d : List (String × α)) (k : String)
    (v : α) (k' : String) (h : (dictGet d k').isSome) :
    (dictGet (dictSet d k v) k').isSome := by
  rw [dictGet_dictSet]
  by_cases hk : k' = k <;> simp [hk, h]

theorem isSome_dictGet_paginationStep (d : List (String × PyVal))
    (link : String) (k : String) (h : (dictGet d k).isSome) :
    (dictGet (paginationStep d link) k).isSome := by
  unfold paginationStep
  exact isSome_dictGet_dictSet _ _ _ _ (isSome_dictGet_dictSet _ _ _ _ h)

theorem isSome_dictGet_foldl (links : List String) :
    ∀ (d : List (String × PyVal)) (k : String), (dictGet d k).isSome →
      (dictGet (links.foldl paginationStep d) k).isSome := by
  induction links with
  | nil => intro d k h; exact h
  | cons hd tl ih =>
      intro d k h
      exact ih _ _ (isSome_dictGet_paginationStep d hd k h)

/-- Every key of the default dictionary is a key of any parse result. -/
theorem isSome_dictGet_pagination (arg : LinkArg) (k : String)
    (h : (dictGet paginationDefaults k).isSome) :
    (dictGet (github_pagination arg) k).isSome := by
  cases arg with
  | str s => simpa [github_pagination] using isSome_dictGet_foldl _ _ _ h
  | resp r =>
      cases hdr : headerGet r.headers "Link" with
      | none => simpa [github_pagination, hdr] using h
      | some ls =>
          simpa [github_pagination, hdr] using isSome_dictGet_foldl _ _ _ h

/-- The `nextURL` slot exists for every response, so
`pagelinks['nextURL']` never raises and equals `nextVal`. -/
theorem dictGet_nextURL (r : Response) :
    dictGet (github_pagination (.resp r)) "nextURL" = some (nextVal r) := by
  have h := isSome_dictGet_pagination (.resp r) "nextURL" (by decide)
  unfold nextVal
  cases hd : dictGet (github_pagination (.resp r)) "nextURL" with
  | none => rw [hd] at h; simp at h
  | some v => simp [hd]

/-- A fetch with a nonempty endpoint, no state object and a successful auth
resolution returns the server's response for the resolved URL, keeps the
state absent and only extends the world. -/
theorem rest_api_none_state (files : String → Option IniFile)
    (server : String → Response) (url : String) (hurl : url ≠ "")
    (auth a1 : Auth) (hauth : resolve_auth files auth = .ok a1)
    (headers : List (String × String)) (session : Option Nat) (w : World) :
    ∃ w', github_rest_api files server (some url) auth headers Option.none session w
      = (.ok (some (server (resolveUrl url))), Option.none, w') := by
  have he : endpointTruthy (some url) = true := by
    simp [endpointTruthy, hurl]
  cases session with
  | none =>
      exact ⟨{ sessions := w.sessions ++ [a1],
               getLog := w.getLog ++
                 [⟨w.sessions.length, a1, resolveUrl url, mergeHeaders headers⟩],
               prints := w.prints },
             by simp [github_rest_api, he, hauth, select_session]⟩
  | some sid =>
      exact ⟨{ sessions := w.sessions.set sid a1,
               getLog := w.getLog ++
                 [⟨sid, a1, resolveUrl url, mergeHeaders headers⟩],
               prints := w.prints },
             by simp [github_rest_api, he, hauth, select_session]⟩

/-- The payload computed by the page loop over a chain of pages, with no
state object: each page whose status is ok contributes the elements of its
JSON-array body, each non-ok page contributes nothing, and the loop follows
the chain to its end. -/
theorem allpages_loop_payload (files : String → Option IniFile)
    (server : String → Response) (auth a1 : Auth)
    (hauth : resolve_auth files auth = .ok a1)
    (headers : List (String × String)) (session : Option Nat)
    (url : String) (pages : List Response)
    (hchain : FetchChain server url pages) :
    url ≠ "" →
    (∀ r ∈ pages, r.ok = true → ∃ xs, json_loads r.text = .ok (Json.jarr xs)) →
    ∀ fuel : Nat, pages.length ≤ fuel → ∀ (payload : List Json) (w : World),
      (github_allpages_loop files server auth headers session fuel (some url)
          payload Option.none w).1
        = .ok (payload ++
            pages.flatMap (fun r => if r.ok then bodyElems r else [])) := by
  induction hchain with
  | last url hstop =>
      intro hurl hparse fuel hfuel payload w
      cases fuel with
      | zero => simp at hfuel
      | succ f =>
          obtain ⟨w', hw⟩ :=
            rest_api_none_state files server url hurl auth a1 hauth headers session w
          by_cases hok : (server (resolveUrl url)).ok
          · obtain ⟨xs, hxs⟩ := hparse _ (by simp) hok
            have hbody : bodyElems (server (resolveUrl url)) = xs := by
              simp [bodyElems, hxs]
            simp [github_allpages_loop, hw, dictGet_nextURL, hstop, hok, hxs,
              pyExtend, hbody]
          · simp [github_allpages_loop, hw, dictGet_nextURL, hstop, hok]
  | step url u rs hnext hu htail ih =>
      intro hurl hparse fuel hfuel payload w
      cases fuel with
      | zero => simp at hfuel
      | succ f =>
          obtain ⟨w', hw⟩ :=
            rest_api_none_state files server url hurl auth a1 hauth headers session w
          have hfuel' : rs.length ≤ f := by
            simp [List.length_cons] at hfuel; omega
          have ihapp := ih hu
            (fun r hr hok => hparse r (List.mem_cons_of_mem _ hr) hok) f hfuel'
          have htr : (PyVal.str u).truthy = true := by
            simp [PyVal.truthy, hu]
          by_cases hok : (server (resolveUrl url)).ok
          · obtain ⟨xs, hxs⟩ := hparse _ (by simp) hok
            have hbody : bodyElems (server (resolveUrl url)) = xs := by
              simp [bodyElems, hxs]
            simp [github_allpages_loop, hw, dictGet_nextURL, hnext, htr, hok,
              hxs, pyExtend, hbody, ihapp]
          · simp [github_allpages_loop, hw, dictGet_nextURL, hnext, htr, hok,
              ihapp]

/-- Claim C4: parsing the pagination header string
`<https://api.x/items?page=2>; rel="next", <https://api.x/items?page=5>; rel="last"`
yields the next relation with page "2" and URL
`https://api.x/items?page=2`, the last relation with page "5", and the first
and prev relations at their absent defaults (page the int 0, URL None). -/
theorem C4_pagination_example :
    (dictGet (github_pagination (.str "<https://api.x/items?page=2>; rel=\"next\", <https://api.x/items?page=5>; rel=\"last\"")) "nextpage"
      = some (.str "2"))
    ∧ (dictGet (github_pagination (.str "<https://api.x/items?page=2>; rel=\"next\", <https://api.x/items?page=5>; rel=\"last\"")) "nextURL"
      = some (.str "https://api.x/items?page=2"))
    ∧ (dictGet (github_pagination (.str "<https://api.x/items?page=2>; rel=\"next\", <https://api.x/items?page=5>; rel=\"last\"")) "lastpage"
      = some (.str "5"))
    ∧ (dictGet (github_pagination (.str "<https://api.x/items?page=2>; rel=\"next\", <https://api.x/items?page=5>; rel=\"last\"")) "lastURL"
      = some (.str "https://api.x/items?page=5"))
    ∧ (dictGet (github_pagination (.str "<https://api.x/items?page=2>; rel=\"next\", <https://api.x/items?page=5>; rel=\"last\"")) "firstpage"
      = some (.int 0))
    ∧ (dictGet (github_pagination (.str "<https://api.x/items?page=2>; rel=\"next\", <https://api.x/items?page=5>; rel=\"last\"")) "firstURL"
      = some .none)
    ∧ (dictGet (github_pagination (.str "<https://api.x/items?page=2>; rel=\"next\", <https://api.x/items?page=5>; rel=\"last\"")) "prevpage"
      = some (.int 0))
    ∧ (dictGet (github_pagination (.str "<https://api.x/items?page=2>; rel=\"next\", <https://api.x/items?page=5>; rel=\"last\"")) "prevURL"
      = some .none) := by
  decide

/-- Claim C5: for every response object lacking a Link header, the
pagination parser returns the all-default dictionary (each relation at page
int 0 and URL None); the KeyError is caught, so nothing is raised — in the
model, the function is total and returns the default value. -/
theorem C5_no_link_header (r : Response)
    (h : headerGet r.headers "Link" = Option.none) :
    github_pagination (.resp r) = paginationDefaults := by
  simp [github_pagination, h]

/-- Witness for C5 at a concrete response carrying only an unrelated
header. -/
theorem C5_witness :
    github_pagination (.resp ⟨200, "", [("X-Other", "1")]⟩) = paginationDefaults :=
  C5_no_link_header ⟨200, "", [("X-Other", "1")]⟩ (by decide)

/-- Claim C8 counterexample: a rel token other than first/prev/next/last is
not ignored — `rel="self"` adds the new keys `selfpage` and `selfURL` to the
dictionary (10 keys instead of 8), so the result is not a fixed four-slot
mapping with no other keys. -/
theorem C8_counterexample :
    dictGet (github_pagination (.str "<https://x?page=3>; rel=\"self\"")) "selfpage"
      = some (.str "3")
    ∧ (github_pagination (.str "<https://x?page=3>; rel=\"self\"")).length = 10 := by
  decide

/-- Claim C8 (amended): for every pagination header argument the result
contains the eight fixed keys — a URL slot and a page-number slot for each of
first, prev, next, last, initialized to their absent defaults — but rel
tokens other than these four add further keys beyond the fixed slots instead
of being ignored. -/
theorem C8_amended (arg : LinkArg) :
    ∀ k ∈ ["firstpage", "firstURL", "prevpage", "prevURL",
            "nextpage", "nextURL", "lastpage", "lastURL"],
      (dictGet (github_pagination arg) k).isSome := by
  intro k hk
  apply isSome_dictGet_pagination
  fin_cases hk <;> decide

/-- Witness for C8 (amended) at a concrete header string and key. -/
theorem C8_amended_witness :
    (dictGet (github_pagination (.str "<https://x?page=3>; rel=\"self\"")) "nextURL").isSome :=
  C8_amended (.str "<https://x?page=3>; rel=\"self\"") "nextURL" (by simp)

/-- Claim C1: for every chain of pages reachable from the starting endpoint
via successive next links (each page ok with a JSON-array body, the last page
without a next link), the paginated fetch returns the concatenation of every
page's array elements in page-fetch order — appending only, with no
deduplication and no re-ordering. -/
theorem C1_allpages_concatenation (files : String → Option IniFile)
    (server : String → Response) (auth a1 : Auth)
    (hauth : resolve_auth files auth = .ok a1)
    (headers : List (String × String)) (session : Option Nat)
    (url : String) (hurl : url ≠ "") (pages : List Response)
    (hchain : FetchChain server url pages)
    (hok : ∀ r ∈ pages, r.ok = true)
    (hparse : ∀ r ∈ pages, ∃ xs, json_loads r.text = .ok (Json.jarr xs))
    (fuel : Nat) (hfuel : pages.length ≤ fuel) (w : World) :
    (github_allpages files server fuel (some url) auth headers Option.none
        session w).1
      = .ok (pages.flatMap bodyElems) := by
  have h := allpages_loop_payload files server auth a1 hauth headers session
    url pages hchain hurl (fun r hr _ => hparse r hr) fuel hfuel [] w
  have hcongr : ∀ ps : List Response, (∀ r ∈ ps, r.ok = true) →
      ps.flatMap (fun r => if r.ok then bodyElems r else [])
        = ps.flatMap bodyElems := by
    intro ps
    induction ps with
    | nil => intro _; simp
    | cons hd tl ih =>
        intro hps
        simp [hps hd (by simp), ih (fun r hr => hps r (by simp [hr]))]
  simpa [github_allpages, hcongr pages hok] using h

/-- Witness for C1: the claim's three-page example — pages with ids 1, 2, 3
chained by next links yield exactly those three records in order. -/
theorem C1_witness :
    (github_allpages noFiles c1server 3 (some c1url1) Auth.noneA []
        Option.none Option.none emptyWorld).1
      = .ok [Json.jobj [("id", Json.jnum 1)], Json.jobj [("id", Json.jnum 2)],
             Json.jobj [("id", Json.jnum 3)]] := by
  have hchain : FetchChain c1server c1url1
      [c1server (resolveUrl c1url1), c1server (resolveUrl c1url2),
       c1server (resolveUrl c1url3)] := by
    refine FetchChain.step c1url1 c1url2 _ (by decide) (by decide) ?_
    refine FetchChain.step c1url2 c1url3 _ (by decide) (by decide) ?_
    exact FetchChain.last c1url3 (by decide)
  have h := C1_allpages_concatenation noFiles c1server Auth.noneA Auth.empty
    rfl [] Option.none c1url1 (by decide) _ hchain
    (by intro r hr; simp at hr; rcases hr with h | h | h <;> subst h <;> decide)
    (by intro r hr; simp at hr
        rcases hr with h | h | h <;> subst h <;> exact ⟨_, rfl⟩)
    3 (by decide) emptyWorld
  exact h.trans (by rfl)

/-- Claim C2 counterexample: the first page has non-2xx status 404 and a
body that parses as the JSON array [1], and the loop does continue to the
second (ok) page [2] — but the 404 page's element is NOT appended: the fetch
returns [2], not [1, 2]. -/
theorem C2_counterexample :
    (c2server c2url1).status_code = 404
    ∧ json_loads (c2server c2url1).text = .ok (.jarr [.jnum 1])
    ∧ (github_allpages noFiles c2server 2 (some c2url1) Auth.noneA []
        Option.none Option.none emptyWorld).1 = .ok [Json.jnum 2]
    ∧ Json.jnum 1 ∉ [Json.jnum 2] := by
  refine ⟨rfl, rfl, rfl, by simp⟩

/-- Claim C2 (amended): the fetch loop does not short-circuit on error
status — it continues to the next page based on whatever pagination header
the failed response carries — but a page's body is parsed and appended only
when its status is ok (below 400): pages with status 400-599 contribute
nothing to the result. -/
theorem C2_amended (files : String → Option IniFile)
    (server : String → Response) (auth a1 : Auth)
    (hauth : resolve_auth files auth = .ok a1)
    (headers : List (String × String)) (session : Option Nat)
    (url : String) (hurl : url ≠ "") (pages : List Response)
    (hchain : FetchChain server url pages)
    (hparse : ∀ r ∈ pages, r.ok = true →
      ∃ xs, json_loads r.text = .ok (Json.jarr xs))
    (fuel : Nat) (hfuel : pages.length ≤ fuel) (w : World) :
    (github_allpages files server fuel (some url) auth headers Option.none
        session w).1
      = .ok (pages.flatMap fun r => if r.ok then bodyElems r else []) := by
  simpa [github_allpages] using allpages_loop_payload files server auth a1
    hauth headers session url pages hchain hurl hparse fuel hfuel [] w

/-- Witness for C2 (amended): the 404-then-200 chain yields only the ok
page's element. -/
theorem C2_amended_witness :
    (github_allpages noFiles c2server 2 (some c2url1) Auth.noneA []
        Option.none Option.none emptyWorld).1 = .ok [Json.jnum 2] := by
  have hchain : FetchChain c2server c2url1
      [c2server (resolveUrl c2url1), c2server (resolveUrl c2url2)] := by
    refine FetchChain.step c2url1 c2url2 _ (by decide) (by decide) ?_
    exact FetchChain.last c2url2 (by decide)
  have h := C2_amended noFiles c2server Auth.noneA Auth.empty rfl []
    Option.none c2url1 (by decide) _ hchain
    (by intro r hr _; simp at hr; rcases hr with h | h <;> subst h <;> exact ⟨_, rfl⟩)
    2 (by decide) emptyWorld
  exact h.trans (by rfl)

/-- Claim C3 counterexample: calling the paginated fetch with a None
endpoint does not return None and does not merely print — it raises
AttributeError when the loop dereferences the None returned by the per-page
fetch (`response.status_code`). -/
theorem C3_counterexample :
    (github_allpages noFiles plainServer 1 Option.none Auth.noneA []
        Option.none Option.none emptyWorld).1 = .error .attributeError := rfl

/-- Claim C3 (amended): with a None or empty endpoint the per-page fetch
`github_rest_api` prints the error line and returns None without raising;
the paginated fetch `github_allpages`, however, then raises AttributeError
on that None instead of returning None. -/
theorem C3_amended (files : String → Option IniFile)
    (server : String → Response) (endpoint : Option String)
    (hend : endpointTruthy endpoint = false) (auth : Auth)
    (headers : List (String × String)) (state : Option GithubState)
    (session : Option Nat) (w : World) (fuel : Nat) :
    github_rest_api files server endpoint auth headers state session w
      = (.ok Option.none, state,
         pushPrint w "ERROR: github_api() called with no endpoint")
    ∧ (github_allpages files server (fuel + 1) endpoint auth headers state
        session w).1 = .error .attributeError := by
  constructor
  · simp [github_rest_api, hend]
  · simp [github_allpages, github_allpages_loop, github_rest_api, hend]

/-- Witness for C3 (amended) at the concrete endpoint None. -/
theorem C3_amended_witness :
    github_rest_api noFiles plainServer Option.none Auth.noneA [] Option.none
        Option.none emptyWorld
      = (.ok Option.none, Option.none,
         pushPrint emptyWorld "ERROR: github_api() called with no endpoint")
    ∧ (github_allpages noFiles plainServer 1 Option.none Auth.noneA []
        Option.none Option.none emptyWorld).1 = .error .attributeError :=
  C3_amended noFiles plainServer Option.none rfl Auth.noneA [] Option.none
    Option.none emptyWorld 0

/-- When the Limit header is missing — or parses as an integer while the
Remaining header is missing — the rate-limit block catches the KeyError and
sets both counters to the sentinel. -/
theorem rateLimitUpdate_sentinel (st : GithubState) (resp : Response)
    (hmiss : headerGet resp.headers "X-RateLimit-Limit" = Option.none
      ∨ ∃ s n, headerGet resp.headers "X-RateLimit-Limit" = some s
          ∧ pyInt s = .ok n
          ∧ headerGet resp.headers "X-RateLimit-Remaining" = Option.none) :
    rateLimitUpdate st resp
      = .ok { st with last_ratelimit := 999999, last_remaining := 999999 } := by
  rcases hmiss with h | ⟨s, n, hs, hn, hr⟩
  · simp [rateLimitUpdate, h]
  · simp [rateLimitUpdate, hs, hn, hr]

/-- Claim C6 counterexample: the state object is supplied and the response
lacks the X-RateLimit-Remaining header, but its X-RateLimit-Limit header
holds the non-integer "abc": `int('abc')` raises ValueError, which the
KeyError-only handler does not catch — the error propagates and the stored
counters keep their old values 5000/4999 instead of becoming 999999. -/
theorem C6_counterexample :
    (github_rest_api noFiles c6server (some "https://api.x/a")
        (Auth.pair "u" (some "p")) [] (some st6) Option.none emptyWorld).1
      = .error .valueError
    ∧ (github_rest_api noFiles c6server (some "https://api.x/a")
        (Auth.pair "u" (some "p")) [] (some st6) Option.none emptyWorld).2.1
      = some ⟨false, some 0, 5000, 4999⟩ :=
  ⟨rfl, rfl⟩

/-- Claim C6 (amended): with a state object supplied, if the response lacks
the X-RateLimit-Limit header — or carries an integer-valued one while
lacking X-RateLimit-Remaining — both stored counters are set to the
sentinel 999999 and no error propagates; since only the KeyError of a
missing header is caught, a present but non-integer header value instead
raises ValueError (see the counterexample). -/
theorem C6_amended (files : String → Option IniFile)
    (server : String → Response) (url : String) (hurl : url ≠ "")
    (auth a1 : Auth) (hauth : resolve_auth files auth = .ok a1)
    (headers : List (String × String)) (session : Option Nat)
    (st : GithubState) (w : World)
    (hmiss : headerGet (server (resolveUrl url)).headers "X-RateLimit-Limit"
        = Option.none
      ∨ ∃ s n, headerGet (server (resolveUrl url)).headers "X-RateLimit-Limit"
            = some s
          ∧ pyInt s = .ok n
          ∧ headerGet (server (resolveUrl url)).headers "X-RateLimit-Remaining"
            = Option.none) :
    (github_rest_api files server (some url) auth headers (some st) session w).1
        = .ok (some (server (resolveUrl url)))
    ∧ ((github_rest_api files server (some url) auth headers (some st) session
        w).2.1).map GithubState.last_ratelimit = some 999999
    ∧ ((github_rest_api files server (some url) auth headers (some st) session
        w).2.1).map GithubState.last_remaining = some 999999 := by
  have he : endpointTruthy (some url) = true := by simp [endpointTruthy, hurl]
  have hrl : ∀ st' : GithubState, rateLimitUpdate st' (server (resolveUrl url))
      = .ok { st' with last_ratelimit := 999999, last_remaining := 999999 } :=
    fun st' => rateLimitUpdate_sentinel st' _ hmiss
  refine ⟨?_, ?_, ?_⟩ <;>
    cases session with
    | some sid =>
        by_cases hv : st.verbose <;>
          simp [github_rest_api, he, hauth, select_session, hrl, hv, pushPrint]
    | none =>
        cases hrs : st.requests_session with
        | some sid2 =>
            by_cases hv : st.verbose <;>
              simp [github_rest_api, he, hauth, select_session, hrs, hrl, hv,
                pushPrint]
        | none =>
            by_cases hv : st.verbose <;>
              simp [github_rest_api, he, hauth, select_session, hrs, hrl, hv,
                pushPrint]

/-- Witness for C6 (amended): a response with neither rate-limit header sets
both counters to 999999. -/
theorem C6_amended_witness :
    (github_rest_api noFiles c6missingServer (some "https://api.x/a")
        (Auth.pair "u" (some "p")) [] (some st6) Option.none emptyWorld).1
      = .ok (some (c6missingServer (resolveUrl "https://api.x/a")))
    ∧ ((github_rest_api noFiles c6missingServer (some "https://api.x/a")
        (Auth.pair "u" (some "p")) [] (some st6) Option.none
        emptyWorld).2.1).map GithubState.last_ratelimit = some 999999
    ∧ ((github_rest_api noFiles c6missingServer (some "https://api.x/a")
        (Auth.pair "u" (some "p")) [] (some st6) Option.none
        emptyWorld).2.1).map GithubState.last_remaining = some 999999 :=
  C6_amended noFiles c6missingServer "https://api.x/a" (by decide)
    (Auth.pair "u" (some "p")) (Auth.pair "u" (some "p")) rfl [] Option.none
    st6 emptyWorld (Or.inl rfl)

/-- Claim C7 counterexample: a two-page fetch with neither session nor state
creates TWO sessions — one per page GET, with the two GETs issued from
distinct fresh sessions 0 and 1 — not a single throwaway session created
once before the loop and reused for every page. -/
theorem C7_counterexample :
    ((github_allpages noFiles c2server 2 (some c2url1) Auth.noneA []
        Option.none Option.none emptyWorld).2.2).sessions.length = 2
    ∧ ((github_allpages noFiles c2server 2 (some c2url1) Auth.noneA []
        Option.none Option.none emptyWorld).2.2).getLog.map GetEvent.sid
      = [0, 1] :=
  ⟨rfl, rfl⟩

/-- Claim C7 (amended): when neither a session nor a state object is
supplied, the throwaway session is created inside the per-page fetch — once
per page GET, not once before the page loop — so each page GET of such a
fetch uses its own fresh session: one call on a world holding n sessions
creates session n and issues its single GET from it. -/
theorem C7_amended (files : String → Option IniFile)
    (server : String → Response) (url : String) (hurl : url ≠ "")
    (auth a1 : Auth) (hauth : resolve_auth files auth = .ok a1)
    (headers : List (String × String)) (w : World) :
    ((github_rest_api files server (some url) auth headers Option.none
        Option.none w).2.2).sessions.length = w.sessions.length + 1
    ∧ ((github_rest_api files server (some url) auth headers Option.none
        Option.none w).2.2).getLog
      = w.getLog ++ [⟨w.sessions.length, a1, resolveUrl url,
          mergeHeaders headers⟩] := by
  have he : endpointTruthy (some url) = true := by simp [endpointTruthy, hurl]
  constructor <;> simp [github_rest_api, he, hauth, select_session]

/-- Witness for C7 (amended) at a concrete call on the empty world. -/
theorem C7_amended_witness :
    ((github_rest_api noFiles plainServer (some "https://x") Auth.noneA []
        Option.none Option.none emptyWorld).2.2).sessions.length
      = emptyWorld.sessions.length + 1
    ∧ ((github_rest_api noFiles plainServer (some "https://x") Auth.noneA []
        Option.none Option.none emptyWorld).2.2).getLog
      = emptyWorld.getLog ++ [⟨emptyWorld.sessions.length, Auth.empty,
          resolveUrl "https://x", mergeHeaders []⟩] :=
  C7_amended noFiles plainServer "https://x" (by decide) Auth.noneA Auth.empty
    rfl [] emptyWorld

/-- Claim C9: every per-page fetch call with a usable endpoint and a
successful auth resolution mutates the auth attribute of the session object
it uses — whether caller-supplied, cached on the state object, or freshly
created — setting it to the resolved auth before issuing the GET (the
logged GET carries exactly that auth), and the mutation persists in the
session store after the call returns; when no auth is passed and no default
account is found, the assigned value is the empty tuple. -/
theorem C9_session_auth_mutation (files : String → Option IniFile)
    (server : String → Response) (url : String) (hurl : url ≠ "")
    (auth a1 : Auth) (hauth : resolve_auth files auth = .ok a1)
    (headers : List (String × String)) (state : Option GithubState)
    (session : Option Nat) (w : World) :
    ((github_rest_api files server (some url) auth headers state session
        w).2.2).sessions
      = ((select_session state session w).2.2).sessions.set
          (select_session state session w).1 a1
    ∧ ((github_rest_api files server (some url) auth headers state session
        w).2.2).getLog
      = ((select_session state session w).2.2).getLog
          ++ [⟨(select_session state session w).1, a1, resolveUrl url,
               mergeHeaders headers⟩]
    ∧ (auth.truthy = false →
        setting files "dougerino" "defaults" "github_user" = .ok Option.none →
        a1 = Auth.empty) := by
  have he : endpointTruthy (some url) = true := by simp [endpointTruthy, hurl]
  rcases hsel : select_session state session w with ⟨sid, state1, w1⟩
  simp only [hsel]
  have hfields :
      ((github_rest_api files server (some url) auth headers state session
          w).2.2).sessions = w1.sessions.set sid a1
      ∧ ((github_rest_api files server (some url) auth headers state session
          w).2.2).getLog
        = w1.getLog ++ [⟨sid, a1, resolveUrl url, mergeHeaders headers⟩] := by
    cases state1 with
    | none => constructor <;> simp [github_rest_api, he, hauth, hsel]
    | some st1 =>
        by_cases hv : st1.verbose
        · cases hru : rateLimitUpdate st1 (server (resolveUrl url)) with
          | error p =>
              constructor <;>
                simp [github_rest_api, he, hauth, hsel, hv, hru, pushPrint]
          | ok st2 =>
              by_cases hv2 : st2.verbose <;>
                (constructor <;>
                  simp [github_rest_api, he, hauth, hsel, hv, hru, hv2,
                    pushPrint])
        · cases hru : rateLimitUpdate st1 (server (resolveUrl url)) with
          | error p =>
              constructor <;>
                simp [github_rest_api, he, hauth, hsel, hv, hru, pushPrint]
          | ok st2 =>
              by_cases hv2 : st2.verbose <;>
                (constructor <;>
                  simp [github_rest_api, he, hauth, hsel, hv, hru, hv2,
                    pushPrint])
  refine ⟨hfields.1, hfields.2, ?_⟩
  intro h1 h2
  simp [resolve_auth, h1, h2] at hauth
  exact hauth.symm

/-- Witness for C9 at a caller-supplied session (id 0) in a one-session
world. -/
theorem C9_witness :
    ((github_rest_api noFiles plainServer (some "https://x") Auth.noneA []
        Option.none (some 0) ⟨[Auth.noneA], [], []⟩).2.2).sessions
      = ((select_session Option.none (some 0)
          ⟨[Auth.noneA], [], []⟩).2.2).sessions.set
          (select_session Option.none (some 0) ⟨[Auth.noneA], [], []⟩).1
          Auth.empty
    ∧ ((github_rest_api noFiles plainServer (some "https://x") Auth.noneA []
        Option.none (some 0) ⟨[Auth.noneA], [], []⟩).2.2).getLog
      = ((select_session Option.none (some 0)
          ⟨[Auth.noneA], [], []⟩).2.2).getLog
          ++ [⟨(select_session Option.none (some 0)
              ⟨[Auth.noneA], [], []⟩).1, Auth.empty, resolveUrl "https://x",
              mergeHeaders []⟩]
    ∧ (Auth.noneA.truthy = false →
        setting noFiles "dougerino" "defaults" "github_user" = .ok Option.none →
        Auth.empty = Auth.empty) :=
  C9_session_auth_mutation noFiles plainServer "https://x" (by decide)
    Auth.noneA Auth.empty rfl [] Option.none (some 0) ⟨[Auth.noneA], [], []⟩

/-- Claim C10: the settings lookup returns None exactly when the requested
section is absent from the (possibly missing, hence empty) ini file; when
the section exists but the requested key is absent within it, the lookup
raises NoOptionError instead of returning None — only NoSectionError is
caught. -/
theorem C10_setting (files : String → Option IniFile)
    (topic sectionName key : String) :
    (setting files topic sectionName key = .ok Option.none ↔
      iniSection ((files (pyLower topic)).getD []) sectionName = Option.none)
    ∧ (∀ sect, iniSection ((files (pyLower topic)).getD []) sectionName
          = some sect →
        iniKey sect key = Option.none →
        setting files topic sectionName key = .error .noOptionError) := by
  constructor
  · constructor
    · intro h
      cases hs : iniSection ((files (pyLower topic)).getD []) sectionName with
      | none => rfl
      | some sect =>
          cases hk : iniKey sect key with
          | none => simp [setting, hs, hk] at h
          | some v => simp [setting, hs, hk] at h
    · intro h
      simp [setting, h]
  · intro sect hs hk
    simp [setting, hs, hk]

/-- Witness for C10: a missing ini file yields None; an existing section
with a missing key raises NoOptionError. -/
theorem C10_witness :
    setting iniFiles1 "nosuch" "alice" "pat" = .ok Option.none
    ∧ setting iniFiles1 "github" "alice" "email" = .error .noOptionError :=
  ⟨(C10_setting iniFiles1 "nosuch" "alice" "pat").1.mpr (by decide),
   (C10_setting iniFiles1 "github" "alice" "email").2 [("pat", "tok123")]
     (by decide) (by decide)⟩
